import Mathlib

/-!
Verification development for the tracklite owner-portal tracking engine.

The definitions below are a shallow embedding of the public tracking
endpoint `track_shipment` in `src/api/app/routers/owner.py` together with
the data model it reads (`src/api/app/models/{receipt,labtest,report,invoice}.py`).

Modelling conventions:
* database rows are Lean structures; a `Store` is the four tables as lists;
* a SQLAlchemy `select(...).where(col == q)` followed by
  `scalar_one_or_none()` is modelled by filtering the list and applying
  `scalar_one_or_none`, which returns `Except.error ()` when more than one
  row matches (SQLAlchemy raises `MultipleResultsFound` there);
* relationship loads (`labtest.receipt`, `report.labtest`, `invoice.report`)
  follow the foreign key; a type-consistent one is a `List.find?`;
* identity columns keep the source's declared SQL types, which are split:
  `receipts.id`, `invoices.id`, `invoices.report_id` and `invoices.invoice_no`
  are `String` (`models/receipt.py` line 21, `models/invoice.py` lines 21-23),
  while `labtests.id`, `labtests.receipt_id`, `reports.id` and
  `reports.labtest_id` are `postgresql.UUID(as_uuid=True)`
  (`models/labtest.py` lines 29-30, `models/report.py` lines 32-33).  On the
  deployed stack (SQLAlchemy 2.0, required by `async_sessionmaker` in
  `app/db.py`; default backend `sqlite+aiosqlite`) a statement that compares
  a UUID-typed column with a plain-`str` parameter fails in the dialect's
  character-based Uuid bind processing (AttributeError on the string), a
  statement that compares a `String` column with a `uuid.UUID` parameter
  fails at the sqlite3 driver (unsupported bind type), and on a PostgreSQL
  backend the corresponding casts raise for the same statements; in every
  case the statement raises before any row can match.  Such selects and
  relationship loads are therefore embedded as `Except.error ()`, while
  type-consistent ones stay total lookups.  (The repository's
  `utils/uuid_utils.StringUUID` decorator, whose docstring promises that a
  malformed value "will simply fail to match", is attached to no model
  column: `models/base.py` is not used by the four tracking models.);
* `datetime` values are modelled as natural numbers.
-/

namespace Tracklite

/-- `TestStatus` enum from `models/labtest.py`. -/
inductive TestStatus where
  | QUEUED | IN_PROGRESS | COMPLETED | FAILED | NEEDS_RETEST | ON_HOLD
  deriving DecidableEq, Repr

/-- `.value` of a `TestStatus` member (the enum's string payload). -/
def TestStatus.value : TestStatus → String
  | .QUEUED => "QUEUED"
  | .IN_PROGRESS => "IN_PROGRESS"
  | .COMPLETED => "COMPLETED"
  | .FAILED => "FAILED"
  | .NEEDS_RETEST => "NEEDS_RETEST"
  | .ON_HOLD => "ON_HOLD"

/-- `FinalStatus` enum from `models/report.py`. -/
inductive FinalStatus where
  | DRAFT | READY_FOR_APPROVAL | APPROVED | REJECTED
  deriving DecidableEq, Repr

/-- `CommunicationStatus` enum from `models/report.py`. -/
inductive CommunicationStatus where
  | PENDING | DISPATCHED | DELIVERED
  deriving DecidableEq, Repr

def CommunicationStatus.value : CommunicationStatus → String
  | .PENDING => "PENDING"
  | .DISPATCHED => "DISPATCHED"
  | .DELIVERED => "DELIVERED"

/-- `CommunicationChannel` enum from `models/report.py`. -/
inductive CommunicationChannel where
  | COURIER | IN_PERSON | EMAIL
  deriving DecidableEq, Repr

def CommunicationChannel.value : CommunicationChannel → String
  | .COURIER => "COURIER"
  | .IN_PERSON => "IN_PERSON"
  | .EMAIL => "EMAIL"

/-- `InvoiceStatus` enum from `models/invoice.py`. -/
inductive InvoiceStatus where
  | DRAFT | ISSUED | SENT | PAID | CANCELLED
  deriving DecidableEq, Repr

def InvoiceStatus.value : InvoiceStatus → String
  | .DRAFT => "DRAFT"
  | .ISSUED => "ISSUED"
  | .SENT => "SENT"
  | .PAID => "PAID"
  | .CANCELLED => "CANCELLED"

/-- Row of the `receipts` table (`models/receipt.py`), restricted to the
columns the tracking endpoint reads. -/
structure Receipt where
  id : String
  branch : String
  forward_to_central : Bool
  courier_awb : Option String
  created_at : Nat
  deriving DecidableEq, Repr

/-- Row of the `labtests` table (`models/labtest.py`). -/
structure LabTest where
  id : String
  receipt_id : String
  lab_doc_no : String
  test_status : TestStatus
  created_at : Nat
  updated_at : Nat
  deriving DecidableEq, Repr

/-- Row of the `reports` table (`models/report.py`). -/
structure Report where
  id : String
  labtest_id : String
  final_status : FinalStatus
  approved_by : Option String
  comm_status : CommunicationStatus
  comm_channel : CommunicationChannel
  created_at : Nat
  updated_at : Nat
  deriving DecidableEq, Repr

/-- Row of the `invoices` table (`models/invoice.py`). -/
structure Invoice where
  id : String
  report_id : String
  invoice_no : String
  status : InvoiceStatus
  paid_at : Option Nat
  created_at : Nat
  updated_at : Nat
  deriving DecidableEq, Repr

/-- The queryable store: the four tables read by the engine. -/
structure Store where
  receipts : List Receipt
  labtests : List LabTest
  reports : List Report
  invoices : List Invoice
  deriving Repr

/-- `TimelineStep` schema (`schemas/owner.py`). -/
structure TimelineStep where
  step : String
  status : String
  timestamp : Option Nat
  description : String
  deriving DecidableEq, Repr

/-- One entry of the `documents` list built by `track_shipment`
(a plain dict in the source). -/
structure DocumentRef where
  type : String
  id : String
  name : String
  status : String
  download_available : Bool
  deriving DecidableEq, Repr

/-- `TrackingResult` schema (`schemas/owner.py`); field defaults as in the
pydantic model. -/
structure TrackingResult where
  found : Bool
  type : Option String := none
  id : Option String := none
  current_step : Option String := none
  timeline : List TimelineStep := []
  documents : List DocumentRef := []
  deriving DecidableEq, Repr

/-- The fixed 11-stage order `TIMELINE_STEPS` from `routers/owner.py`. -/
def TIMELINE_STEPS : List String :=
  ["received", "forwarded", "central", "lab_queued", "in_progress",
   "completed", "report_ready", "approved", "communicated", "invoiced", "paid"]

/-- Python-style `str.title()` word capitalisation, used only by the (dead)
default branch of `get_step_description`. -/
def titleCase (s : String) : String :=
  String.intercalate " " (((s.splitOn " ").map String.capitalize))

/-- `get_step_description` from `routers/owner.py`: static labels for
pending steps. -/
def get_step_description (step : String) : String :=
  match step with
  | "received" => "Received at Branch"
  | "forwarded" => "Forwarded to Central Lab"
  | "central" => "Received at Central"
  | "lab_queued" => "Lab Processing Queued"
  | "in_progress" => "Lab Testing In Progress"
  | "completed" => "Lab Testing Completed"
  | "report_ready" => "Report Generated"
  | "approved" => "Report Approved"
  | "communicated" => "Report Communicated"
  | "invoiced" => "Invoice Generated"
  | "paid" => "Payment Completed"
  | _ => titleCase ((step.replace "_" " "))

/-- SQLAlchemy `Result.scalar_one_or_none()`: `none` on zero rows, the row
on exactly one, and `MultipleResultsFound` (modelled as `Except.error ()`)
on two or more rows. -/
def scalar_one_or_none : List α → Except Unit (Option α)
  | [] => .ok none
  | [a] => .ok (some a)
  | _ => .error ()

/-- The four resolver variables of `track_shipment` (lines 59-62 of
`routers/owner.py`), threaded through the probes. -/
structure ResolveState where
  receipt : Option Receipt := none
  labtest : Option LabTest := none
  report : Option Report := none
  invoice : Option Invoice := none
  deriving DecidableEq, Repr

/-- Relationship load `labtest.receipt`: joins `String`-typed `receipts.id`
(`models/receipt.py` line 21) against the `uuid.UUID` value of
`labtests.receipt_id` (`models/labtest.py` line 30, `UUID(as_uuid=True)`).
The deployed drivers cannot bind a `uuid.UUID` under a `String` column
(and PostgreSQL raises on the varchar/uuid comparison), so the load
raises; see the header. -/
def receiptOf (_db : Store) (_lt : LabTest) : Except Unit (Option Receipt) :=
  .error ()

/-- Relationship load `report.labtest`: `reports.labtest_id` and
`labtests.id` are both `UUID(as_uuid=True)` (`models/report.py` line 33,
`models/labtest.py` line 29), a type-consistent join, so this one works:
a lookup of the test whose id the report references. -/
def labtestOf (db : Store) (rp : Report) : Option LabTest :=
  db.labtests.find? (fun t => t.id == rp.labtest_id)

/-- Relationship load `invoice.report`: joins UUID-typed `reports.id`
(`models/report.py` line 32) against the `str` value of
`invoices.report_id` (`models/invoice.py` line 22, `String(36)`).  The
character-based Uuid bind processing raises on the plain string (and
PostgreSQL raises casting it), so the load raises; see the header. -/
def reportOf (_db : Store) (_inv : Invoice) : Except Unit (Option Report) :=
  .error ()

/-- Probe 3's select `select(LabTest).where(LabTest.id == query)`
(`routers/owner.py` lines 80-85): `labtests.id` is `UUID(as_uuid=True)`
(`models/labtest.py` line 29) while `query` is a plain `str`, so the
statement raises before any row can match, for every query string; see
the header. -/
def labtest_id_select (_db : Store) (_query : String) : Except Unit (Option LabTest) :=
  .error ()

/-- Probe 4's select `select(Report).where(Report.id == query)`
(`routers/owner.py` lines 91-96): `reports.id` is `UUID(as_uuid=True)`
(`models/report.py` line 32) while `query` is a plain `str`, so the
statement raises before any row can match; see the header. -/
def report_id_select (_db : Store) (_query : String) : Except Unit (Option Report) :=
  .error ()

/-- "Search by Invoice ID or Invoice Number" block (lines 101-123):
invoice number first, then invoice id (both `String` columns probed with a
`str`, so these two selects execute normally); on a hit the eagerly loaded
relationships walk the chain up, and the first edge, `invoice.report`,
raises (the `selectinload` secondary query runs only when an invoice row
matched). -/
def probeInvoice (db : Store) (query : String) (st : ResolveState) :
    Except Unit ResolveState :=
  match scalar_one_or_none (db.invoices.filter (fun i => i.invoice_no == query)) with
  | .error e => .error e
  | .ok found =>
    match (match found with
           | some i => Except.ok (some i)
           | none => scalar_one_or_none (db.invoices.filter (fun i => i.id == query))) with
    | .error e => .error e
    | .ok none => .ok st
    | .ok (some invoice) =>
      match reportOf db invoice with
      | .error e => .error e
      | .ok report =>
        let labtest := match report with
                       | some rp => labtestOf db rp
                       | none => none
        match (match labtest with
               | some lt => receiptOf db lt
               | none => Except.ok none) with
        | .error e => .error e
        | .ok receipt =>
          .ok { st with invoice := some invoice, report := report,
                        labtest := labtest, receipt := receipt }

/-- "Search by Report ID" block (lines 89-99): the id select itself raises
(`report_id_select`); the walk-up below it is kept for structure but is
unreachable. -/
def probeReport (db : Store) (query : String) (st : ResolveState) :
    Except Unit ResolveState :=
  match report_id_select db query with
  | .error e => .error e
  | .ok none => probeInvoice db query st
  | .ok (some report) =>
    let labtest := labtestOf db report
    match (match labtest with
           | some lt => receiptOf db lt
           | none => Except.ok none) with
    | .error e => .error e
    | .ok receipt =>
      let st' := { st with report := some report, labtest := labtest, receipt := receipt }
      match receipt with
      | some _ => .ok st'
      | none => probeInvoice db query st'

/-- "Search by Lab Test ID" block (lines 78-87): the id select itself
raises (`labtest_id_select`); the walk-up below it is kept for structure
but is unreachable. -/
def probeLabTest (db : Store) (query : String) (st : ResolveState) :
    Except Unit ResolveState :=
  match labtest_id_select db query with
  | .error e => .error e
  | .ok none => probeReport db query st
  | .ok (some labtest) =>
    match receiptOf db labtest with
    | .error e => .error e
    | .ok receipt =>
      let st' := { st with labtest := some labtest, receipt := receipt }
      match receipt with
      | some _ => .ok st'
      | none => probeReport db query st'

/-- The identifier-resolution phase of `track_shipment` (lines 56-123):
AWB, then receipt id, then lab-test id, then report id, then invoice
number / invoice id, each probe guarded by `if not receipt`. -/
def resolveEntry (db : Store) (query : String) : Except Unit ResolveState :=
  match scalar_one_or_none (db.receipts.filter (fun r => r.courier_awb == some query)) with
  | .error e => .error e
  | .ok (some receipt) => .ok { receipt := some receipt }
  | .ok none =>
    match scalar_one_or_none (db.receipts.filter (fun r => r.id == query)) with
    | .error e => .error e
    | .ok (some receipt) => .ok { receipt := some receipt }
    | .ok none => probeLabTest db query {}

/-- Child select `select(LabTest).where(LabTest.receipt_id == receipt.id)`
(`routers/owner.py` lines 134-137): `labtests.receipt_id` is
`UUID(as_uuid=True)` (`models/labtest.py` line 30) while `receipt.id` is a
`str` (`models/receipt.py` line 21), so the statement raises before any
row can match; see the header. -/
def labtest_child_select (_db : Store) (_receipt : Receipt) :
    Except Unit (Option LabTest) :=
  .error ()

/-- Child select `select(Report).where(Report.labtest_id == labtest.id)`
(`routers/owner.py` lines 140-143): both sides are `UUID(as_uuid=True)`
(`models/report.py` line 33, `models/labtest.py` line 29), a
type-consistent comparison, so it executes: `scalar_one_or_none` over the
matching rows, with no `ORDER BY`. -/
def report_child_select (db : Store) (lt : LabTest) :
    Except Unit (Option Report) :=
  scalar_one_or_none (db.reports.filter (fun rp => rp.labtest_id == lt.id))

/-- Child select `select(Invoice).where(Invoice.report_id == report.id)`
(`routers/owner.py` lines 146-149): `invoices.report_id` is `String(36)`
(`models/invoice.py` line 22) while `report.id` is a `uuid.UUID`
(`models/report.py` line 32, `as_uuid=True`), so the statement raises
before any row can match; see the header. -/
def invoice_child_select (_db : Store) (_rp : Report) :
    Except Unit (Option Invoice) :=
  .error ()

/-- The chain-load phase of `track_shipment` (lines 132-149): fill in the
records not already loaded by the resolver. -/
def loadChain (db : Store) (receipt : Receipt) (st : ResolveState) :
    Except Unit (Option LabTest × Option Report × Option Invoice) :=
  match (match st.labtest with
         | some lt => Except.ok (some lt)
         | none => labtest_child_select db receipt) with
  | .error e => .error e
  | .ok labtest =>
    match ((match st.report, labtest with
            | none, some lt => report_child_select db lt
            | r, _ => Except.ok r) : Except Unit (Option Report)) with
    | .error e => .error e
    | .ok report =>
      match ((match st.invoice, report with
              | none, some rp => invoice_child_select db rp
              | i, _ => Except.ok i) : Except Unit (Option Invoice)) with
      | .error e => .error e
      | .ok invoice => .ok (labtest, report, invoice)

/-- The timeline construction of `track_shipment` (lines 151-255): the
sequential conditional appends followed by the pending tail
`TIMELINE_STEPS[current_index + 1:]`. -/
def buildTimeline (receipt : Receipt) (labtest : Option LabTest)
    (report : Option Report) (invoice : Option Invoice) :
    List TimelineStep × String :=
  let timeline : List TimelineStep :=
    [⟨"received", "completed", some receipt.created_at,
      "Received at " ++ receipt.branch⟩]
  let current_step := "received"
  let (timeline, current_step) : List TimelineStep × String :=
    if receipt.forward_to_central then
      (timeline ++ [⟨"forwarded", "completed", some receipt.created_at,
                     "Forwarded to Central Lab"⟩], "forwarded")
    else (timeline, current_step)
  let (timeline, current_step) : List TimelineStep × String :=
    match labtest with
    | none => (timeline, current_step)
    | some lt =>
      let (timeline, current_step) : List TimelineStep × String :=
        (timeline ++ [⟨"lab_queued", "completed", some lt.created_at,
                       "Lab Processing Started"⟩], "lab_queued")
      let (timeline, current_step) : List TimelineStep × String :=
        if ["IN_PROGRESS", "COMPLETED"].contains lt.test_status.value then
          (timeline ++ [⟨"in_progress", "completed", some lt.updated_at,
                         "Lab Testing In Progress"⟩], "in_progress")
        else (timeline, current_step)
      if lt.test_status.value == "COMPLETED" then
        (timeline ++ [⟨"completed", "completed", some lt.updated_at,
                       "Lab Testing Completed"⟩], "completed")
      else (timeline, current_step)
  let (timeline, current_step) : List TimelineStep × String :=
    match report with
    | none => (timeline, current_step)
    | some rp =>
      let (timeline, current_step) : List TimelineStep × String :=
        (timeline ++ [⟨"report_ready", "completed", some rp.created_at,
                       "Report Generated"⟩], "report_ready")
      if rp.final_status == FinalStatus.APPROVED then
        let (timeline, current_step) : List TimelineStep × String :=
          (timeline ++ [⟨"approved", "completed", some rp.updated_at,
                         "Report Approved by " ++
                           (match rp.approved_by with
                            | some s => s
                            | none => "None")⟩], "approved")
        if ["DISPATCHED", "DELIVERED"].contains rp.comm_status.value then
          (timeline ++ [⟨"communicated", "completed", some rp.updated_at,
                         "Report sent via " ++ rp.comm_channel.value⟩],
           "communicated")
        else (timeline, current_step)
      else (timeline, current_step)
  let (timeline, current_step) : List TimelineStep × String :=
    match invoice with
    | none => (timeline, current_step)
    | some inv =>
      let (timeline, current_step) : List TimelineStep × String :=
        (timeline ++ [⟨"invoiced", "completed", some inv.created_at,
                       "Invoice " ++ inv.invoice_no ++ " created"⟩], "invoiced")
      if inv.status == InvoiceStatus.PAID then
        (timeline ++ [⟨"paid", "completed",
                       some (match inv.paid_at with
                             | some t => t
                             | none => inv.updated_at),
                       "Payment Received"⟩], "paid")
      else (timeline, current_step)
  let current_index :=
    if TIMELINE_STEPS.contains current_step then
      TIMELINE_STEPS.findIdx (fun s => s == current_step)
    else 0
  let timeline :=
    timeline ++ ((TIMELINE_STEPS.drop (current_index + 1)).map
      (fun step => ⟨step, "pending", none, get_step_description step⟩))
  (timeline, current_step)

/-- The document-availability part of `track_shipment` (lines 261-281). -/
def buildDocuments (labtest : Option LabTest) (report : Option Report)
    (invoice : Option Invoice) : List DocumentRef :=
  let documents : List DocumentRef := []
  let documents :=
    match report with
    | some rp =>
      if rp.final_status == FinalStatus.APPROVED then
        documents ++
          [{ type := "report", id := rp.id,
             name := "Lab Report - " ++
               (match labtest with
                | some lt => lt.lab_doc_no
                | none => "N/A"),
             status := "approved", download_available := true }]
      else documents
    | none => documents
  let documents :=
    match invoice with
    | some inv =>
      if [InvoiceStatus.ISSUED, InvoiceStatus.SENT, InvoiceStatus.PAID].contains inv.status then
        documents ++
          [{ type := "invoice", id := inv.id,
             name := "Invoice " ++ inv.invoice_no,
             status := inv.status.value.toLower, download_available := true }]
      else documents
    | none => documents
  documents

/-- The whole `track_shipment` endpoint (`routers/owner.py`, lines 46-283):
resolve, load the chain, derive timeline and documents. -/
def track_shipment (db : Store) (query : String) : Except Unit TrackingResult :=
  match resolveEntry db query with
  | .error e => .error e
  | .ok st =>
    match st.receipt with
    | none => .ok { found := false }
    | some receipt =>
      match loadChain db receipt st with
      | .error e => .error e
      | .ok (labtest, report, invoice) =>
        let (timeline, current_step) : List TimelineStep × String := buildTimeline receipt labtest report invoice
        let documents := buildDocuments labtest report invoice
        .ok { found := true, type := some "receipt", id := some receipt.id,
              current_step := some current_step, timeline := timeline,
              documents := documents }

/-- The per-stage completion predicate, read off the conditions of the
timeline construction in `track_shipment` (lines 155-246): each stage is
appended as `completed` exactly when this predicate holds.  Note that in
the source `communicated` is tested inside the `approved` branch, and
`central` has no condition at all, so its predicate is constantly false. -/
def stagePred (r : Receipt) (olt : Option LabTest) (orp : Option Report)
    (oinv : Option Invoice) : String → Bool
  | "received" => true
  | "forwarded" => r.forward_to_central
  | "lab_queued" => olt.isSome
  | "in_progress" =>
    match olt with
    | some lt => ["IN_PROGRESS", "COMPLETED"].contains lt.test_status.value
    | none => false
  | "completed" =>
    match olt with
    | some lt => lt.test_status.value == "COMPLETED"
    | none => false
  | "report_ready" => orp.isSome
  | "approved" =>
    match orp with
    | some rp => rp.final_status == FinalStatus.APPROVED
    | none => false
  | "communicated" =>
    match orp with
    | some rp => rp.final_status == FinalStatus.APPROVED &&
        ["DISPATCHED", "DELIVERED"].contains rp.comm_status.value
    | none => false
  | "invoiced" => oinv.isSome
  | "paid" =>
    match oinv with
    | some inv => inv.status == InvoiceStatus.PAID
    | none => false
  | _ => false

/-- The last stage of the fixed order whose completion predicate holds
(`received` always holds, so the filtered list is never empty). -/
def currentStageSpec (r : Receipt) (olt : Option LabTest) (orp : Option Report)
    (oinv : Option Invoice) : String :=
  (TIMELINE_STEPS.filter (stagePred r olt orp oinv)).getLastD "received"

/-- The per-stage completion predicate as the specification's stage table
words it (spec section 4.3), for comparison with the implemented
`stagePred`.  The two differ in one row: the table's `communicated` asks
only that the report's communication status be dispatched or delivered
(the report being present), while the implementation tests communication
status inside the approved branch and so also requires
`final_status = APPROVED`. -/
def specTablePred (r : Receipt) (olt : Option LabTest) (orp : Option Report)
    (oinv : Option Invoice) : String → Bool
  | "received" => true
  | "forwarded" => r.forward_to_central
  | "lab_queued" => olt.isSome
  | "in_progress" =>
    match olt with
    | some lt => ["IN_PROGRESS", "COMPLETED"].contains lt.test_status.value
    | none => false
  | "completed" =>
    match olt with
    | some lt => lt.test_status.value == "COMPLETED"
    | none => false
  | "report_ready" => orp.isSome
  | "approved" =>
    match orp with
    | some rp => rp.final_status == FinalStatus.APPROVED
    | none => false
  | "communicated" =>
    match orp with
    | some rp => ["DISPATCHED", "DELIVERED"].contains rp.comm_status.value
    | none => false
  | "invoiced" => oinv.isSome
  | "paid" =>
    match oinv with
    | some inv => inv.status == InvoiceStatus.PAID
    | none => false
  | _ => false

/-- The completed step emitted for each stage, with the timestamp source
and description used in `track_shipment` (the option matches mirror the
chain element each stage reads; stages never emitted keep junk values). -/
def mkCompleted (r : Receipt) (olt : Option LabTest) (orp : Option Report)
    (oinv : Option Invoice) : String → TimelineStep
  | "received" =>
    ⟨"received", "completed", some r.created_at, "Received at " ++ r.branch⟩
  | "forwarded" =>
    ⟨"forwarded", "completed", some r.created_at, "Forwarded to Central Lab"⟩
  | "lab_queued" =>
    ⟨"lab_queued", "completed",
     (match olt with
      | some lt => some lt.created_at
      | none => none), "Lab Processing Started"⟩
  | "in_progress" =>
    ⟨"in_progress", "completed",
     (match olt with
      | some lt => some lt.updated_at
      | none => none), "Lab Testing In Progress"⟩
  | "completed" =>
    ⟨"completed", "completed",
     (match olt with
      | some lt => some lt.updated_at
      | none => none), "Lab Testing Completed"⟩
  | "report_ready" =>
    ⟨"report_ready", "completed",
     (match orp with
      | some rp => some rp.created_at
      | none => none), "Report Generated"⟩
  | "approved" =>
    ⟨"approved", "completed",
     (match orp with
      | some rp => some rp.updated_at
      | none => none),
     (match orp with
      | some rp => "Report Approved by " ++
          (match rp.approved_by with
           | some s => s
           | none => "None")
      | none => "")⟩
  | "communicated" =>
    ⟨"communicated", "completed",
     (match orp with
      | some rp => some rp.updated_at
      | none => none),
     (match orp with
      | some rp => "Report sent via " ++ rp.comm_channel.value
      | none => "")⟩
  | "invoiced" =>
    ⟨"invoiced", "completed",
     (match oinv with
      | some inv => some inv.created_at
      | none => none),
     (match oinv with
      | some inv => "Invoice " ++ inv.invoice_no ++ " created"
      | none => "")⟩
  | "paid" =>
    ⟨"paid", "completed",
     (match oinv with
      | some inv => some (match inv.paid_at with
                          | some t => t
                          | none => inv.updated_at)
      | none => none), "Payment Received"⟩
  | s => ⟨s, "completed", none, ""⟩

/-- The pending tail appended by `track_shipment` after the last completed
stage (lines 248-255), as a function of the reached current step. -/
def codeTail (cur : String) : List TimelineStep :=
  (TIMELINE_STEPS.drop
    ((if TIMELINE_STEPS.contains cur then
        TIMELINE_STEPS.findIdx (fun s => s == cur)
      else 0) + 1)).map
    (fun step => ⟨step, "pending", none, get_step_description step⟩)

/-- Stage names of the steps marked `completed` in a timeline, in
timeline order. -/
def completedSteps (tl : List TimelineStep) : List String :=
  (tl.filter (fun s => s.status == "completed")).map (fun s => s.step)

/-- Stage names of the steps marked `pending` in a timeline. -/
def pendingSteps (tl : List TimelineStep) : List String :=
  (tl.filter (fun s => s.status == "pending")).map (fun s => s.step)

/-- Position of a stage name in the fixed 11-stage order. -/
def stageIdx (s : String) : Nat :=
  TIMELINE_STEPS.findIdx (fun x => x == s)

/-- The `completed` stages of a timeline form a contiguous prefix of the
fixed 11-stage order. -/
def completedContiguous (tl : List TimelineStep) : Bool :=
  completedSteps tl == TIMELINE_STEPS.take (completedSteps tl).length

def cexReceipt : Receipt := ⟨"R-C", "Branch-C", false, none, 10⟩

def cexLabTest : LabTest := ⟨"LT-C", "R-C", "DOC-C", .QUEUED, 11, 12⟩

def multiReceipt : Receipt := ⟨"R-M", "Branch-M", false, some "AWB-M", 20⟩

/-- Store whose single intake owns two lab tests. -/
def multiDb : Store :=
  ⟨[multiReceipt],
   [⟨"LT-M1", "R-M", "D-M1", .QUEUED, 21, 22⟩,
    ⟨"LT-M2", "R-M", "D-M2", .QUEUED, 23, 24⟩], [], []⟩

/-- Invoice whose primary key is not shaped like a UUID at all. -/
def malformedInvoice : Invoice :=
  ⟨"zz not a uuid!", "RP-7", "INV-700", .DRAFT, none, 6, 7⟩

def malformedDb : Store :=
  ⟨[⟨"R-7", "Branch-7", false, none, 1⟩],
   [⟨"LT-7", "R-7", "DOC-7", .QUEUED, 2, 3⟩],
   [⟨"RP-7", "LT-7", .DRAFT, none, .PENDING, .EMAIL, 4, 5⟩],
   [malformedInvoice]⟩

def c3Receipt : Receipt := ⟨"R-3", "Branch-3", true, none, 30⟩

def c3LabTest : LabTest := ⟨"LT-3", "R-3", "DOC-3", .COMPLETED, 31, 32⟩

/-- A reachable report state: still a draft, but already dispatched
(`final_status` and `comm_status` are independent columns with no
constraint tying them; `models/report.py` lines 35-37). -/
def c3Report : Report := ⟨"RP-3", "LT-3", .DRAFT, none, .DISPATCHED, .EMAIL, 33, 34⟩

set_option maxHeartbeats 2000000 in
/-- Characterisation of the timeline construction: the timeline is the
completed steps of exactly the stages whose predicate holds, in the fixed
order, followed by the pending tail after the last such stage, and the
reported current step is that last stage. -/
theorem buildTimeline_eq (r : Receipt) (olt : Option LabTest)
    (orp : Option Report) (oinv : Option Invoice) :
    buildTimeline r olt orp oinv =
      (((TIMELINE_STEPS.filter (stagePred r olt orp oinv)).map
          (mkCompleted r olt orp oinv)) ++
        codeTail ((TIMELINE_STEPS.filter (stagePred r olt orp oinv)).getLastD
          "received"),
       (TIMELINE_STEPS.filter (stagePred r olt orp oinv)).getLastD "received") := by
  obtain ⟨rid, rbranch, fwd, rawb, rcr⟩ := r
  cases fwd <;>
    obtain _ | ⟨ltid, ltrc, ltdoc, lts, ltc, ltu⟩ := olt <;>
    obtain _ | ⟨rpid, rplt, rpfs, rpby, rpcs, rpcc, rpc, rpu⟩ := orp <;>
    obtain _ | ⟨ivid, ivrp, ivno, ivst, ivpd, ivc, ivu⟩ := oinv <;>
    (try cases lts) <;> (try cases rpfs) <;> (try cases ivst) <;>
    first
    | rfl
    | (cases rpcs <;> rfl)

theorem getLastD_mem {α : Type} (l : List α) (d : α) :
    l.getLastD d = d ∨ l.getLastD d ∈ l := by
  induction l generalizing d with
  | nil => exact Or.inl rfl
  | cons a t ih =>
    rw [List.getLastD_cons]
    rcases ih a with h | h
    · exact Or.inr (by rw [h]; exact List.mem_cons_self a t)
    · exact Or.inr (List.mem_cons_of_mem a h)

theorem stageIdx_lt_len : ∀ c ∈ TIMELINE_STEPS, stageIdx c < 11 := by decide

theorem drop_stageIdx_ge :
    ∀ k < 11, ∀ t ∈ TIMELINE_STEPS.drop (k + 1), k + 1 ≤ stageIdx t := by decide

theorem currentStageSpec_mem (r : Receipt) (olt : Option LabTest)
    (orp : Option Report) (oinv : Option Invoice) :
    currentStageSpec r olt orp oinv ∈ TIMELINE_STEPS := by
  unfold currentStageSpec
  rcases getLastD_mem (TIMELINE_STEPS.filter (stagePred r olt orp oinv)) "received" with h | h
  · rw [h]; decide
  · exact List.mem_of_mem_filter h

theorem mkCompleted_status (r : Receipt) (olt : Option LabTest)
    (orp : Option Report) (oinv : Option Invoice) (s : String) :
    (mkCompleted r olt orp oinv s).status = "completed" := by
  unfold mkCompleted
  split <;> rfl

theorem mkCompleted_step (r : Receipt) (olt : Option LabTest)
    (orp : Option Report) (oinv : Option Invoice) (s : String) :
    (mkCompleted r olt orp oinv s).step = s := by
  unfold mkCompleted
  split <;> rfl

theorem codeTail_status {cur : String} {x : TimelineStep}
    (hx : x ∈ codeTail cur) : x.status = "pending" := by
  unfold codeTail at hx
  obtain ⟨s, -, rfl⟩ := List.mem_map.mp hx
  rfl

theorem buildTimeline_completedSteps (r : Receipt) (olt : Option LabTest)
    (orp : Option Report) (oinv : Option Invoice) :
    completedSteps (buildTimeline r olt orp oinv).1 =
      TIMELINE_STEPS.filter (stagePred r olt orp oinv) := by
  rw [buildTimeline_eq]
  unfold completedSteps
  rw [List.filter_append]
  have h1 : ((TIMELINE_STEPS.filter (stagePred r olt orp oinv)).map
      (mkCompleted r olt orp oinv)).filter (fun s => s.status == "completed") =
      (TIMELINE_STEPS.filter (stagePred r olt orp oinv)).map
        (mkCompleted r olt orp oinv) := by
    rw [List.filter_eq_self]
    intro x hx
    obtain ⟨s, -, rfl⟩ := List.mem_map.mp hx
    simp [mkCompleted_status r olt orp oinv s]
  have h2 : (codeTail ((TIMELINE_STEPS.filter (stagePred r olt orp oinv)).getLastD
      "received")).filter (fun s => s.status == "completed") = [] := by
    rw [List.filter_eq_nil_iff]
    intro x hx hb
    rw [codeTail_status hx] at hb
    simp at hb
  rw [h1, h2, List.append_nil, List.map_map]
  have hcg : ∀ a ∈ TIMELINE_STEPS.filter (stagePred r olt orp oinv),
      ((fun s => s.step) ∘ mkCompleted r olt orp oinv) a = id a :=
    fun a _ => mkCompleted_step r olt orp oinv a
  rw [List.map_congr_left hcg, List.map_id]

theorem buildTimeline_current (r : Receipt) (olt : Option LabTest)
    (orp : Option Report) (oinv : Option Invoice) :
    (buildTimeline r olt orp oinv).2 = currentStageSpec r olt orp oinv := by
  rw [buildTimeline_eq]
  rfl

theorem contains_of_mem_TS {c : String} (h : c ∈ TIMELINE_STEPS) :
    TIMELINE_STEPS.contains c = true :=
  List.elem_eq_true_of_mem h

theorem codeTail_steps (cur : String) :
    (codeTail cur).map (fun s => s.step) =
      TIMELINE_STEPS.drop
        ((if TIMELINE_STEPS.contains cur then
            TIMELINE_STEPS.findIdx (fun s => s == cur)
          else 0) + 1) := by
  unfold codeTail
  rw [List.map_map]
  have hco : ((fun s => s.step) ∘ fun step =>
      (⟨step, "pending", none, get_step_description step⟩ : TimelineStep)) =
      fun s => s := rfl
  rw [hco]
  simp

theorem buildTimeline_pendingSteps (r : Receipt) (olt : Option LabTest)
    (orp : Option Report) (oinv : Option Invoice) :
    pendingSteps (buildTimeline r olt orp oinv).1 =
      TIMELINE_STEPS.drop (stageIdx (currentStageSpec r olt orp oinv) + 1) := by
  rw [buildTimeline_eq]
  unfold pendingSteps
  rw [List.filter_append]
  have h1 : ((TIMELINE_STEPS.filter (stagePred r olt orp oinv)).map
      (mkCompleted r olt orp oinv)).filter (fun s => s.status == "pending") = [] := by
    rw [List.filter_eq_nil_iff]
    intro x hx hb
    obtain ⟨s, -, rfl⟩ := List.mem_map.mp hx
    rw [mkCompleted_status r olt orp oinv s] at hb
    simp at hb
  have h2 : (codeTail ((TIMELINE_STEPS.filter (stagePred r olt orp oinv)).getLastD
      "received")).filter (fun s => s.status == "pending") =
      codeTail ((TIMELINE_STEPS.filter (stagePred r olt orp oinv)).getLastD
        "received") := by
    rw [List.filter_eq_self]
    intro x hx
    rw [codeTail_status hx]
    rfl
  rw [h1, h2, List.nil_append, codeTail_steps]
  have hcontains : TIMELINE_STEPS.contains
      ((TIMELINE_STEPS.filter (stagePred r olt orp oinv)).getLastD "received") =
      true :=
    contains_of_mem_TS (currentStageSpec_mem r olt orp oinv)
  rw [if_pos hcontains]
  rfl

theorem buildTimeline_statuses (r : Receipt) (olt : Option LabTest)
    (orp : Option Report) (oinv : Option Invoice) :
    ∀ s ∈ (buildTimeline r olt orp oinv).1,
      s.status = "completed" ∨ s.status = "pending" := by
  rw [buildTimeline_eq]
  intro x hx
  rcases List.mem_append.mp hx with hx | hx
  · obtain ⟨s, -, rfl⟩ := List.mem_map.mp hx
    exact Or.inl (mkCompleted_status r olt orp oinv s)
  · exact Or.inr (codeTail_status hx)

theorem mem_le_getLastD (l : List String) :
    ∀ (d : String), l.Pairwise (fun a b => stageIdx a < stageIdx b) →
      ∀ s ∈ l, stageIdx s ≤ stageIdx (l.getLastD d) := by
  induction l with
  | nil => intro d hp s hs; cases hs
  | cons a t ih =>
    intro d hp s hs
    rw [List.getLastD_cons]
    rcases List.mem_cons.mp hs with rfl | hst
    · cases t with
      | nil => exact Nat.le_refl _
      | cons b u =>
        have hne : b :: u ≠ ([] : List String) := by simp
        have hlast : (b :: u).getLastD s = (b :: u).getLast hne := by
          rw [List.getLastD_eq_getLast?, List.getLast?_eq_getLast _ hne]
          rfl
        rw [hlast]
        exact Nat.le_of_lt ((List.pairwise_cons.mp hp).1 _
          (List.getLast_mem hne))
    · exact ih a (List.pairwise_cons.mp hp).2 s hst

theorem completed_le_current (r : Receipt) (olt : Option LabTest)
    (orp : Option Report) (oinv : Option Invoice) :
    ∀ s ∈ completedSteps (buildTimeline r olt orp oinv).1,
      stageIdx s ≤ stageIdx (currentStageSpec r olt orp oinv) := by
  intro s hs
  rw [buildTimeline_completedSteps] at hs
  have hpw : TIMELINE_STEPS.Pairwise (fun a b => stageIdx a < stageIdx b) := by
    decide
  have hpf : (TIMELINE_STEPS.filter (stagePred r olt orp oinv)).Pairwise
      (fun a b => stageIdx a < stageIdx b) :=
    List.Pairwise.sublist (List.filter_sublist _) hpw
  exact mem_le_getLastD _ "received" hpf s hs

/-- Claim C1 (amended): a stage is marked completed exactly when its predicate
holds, and every completed stage strictly precedes every pending stage in
the fixed 11-stage order (the completed stages need not be a contiguous
prefix: failed stages are skipped, not blocking). -/
theorem c1_completed_stages_order (r : Receipt) (olt : Option LabTest)
    (orp : Option Report) (oinv : Option Invoice) :
    completedSteps (buildTimeline r olt orp oinv).1 =
      TIMELINE_STEPS.filter (stagePred r olt orp oinv) ∧
    ∀ s ∈ completedSteps (buildTimeline r olt orp oinv).1,
      ∀ t ∈ pendingSteps (buildTimeline r olt orp oinv).1,
        stageIdx s < stageIdx t := by
  refine ⟨buildTimeline_completedSteps r olt orp oinv, ?_⟩
  intro s hs t ht
  have hle := completed_le_current r olt orp oinv s hs
  have hmem := currentStageSpec_mem r olt orp oinv
  have hk := stageIdx_lt_len _ hmem
  rw [buildTimeline_pendingSteps] at ht
  have hge := drop_stageIdx_ge _ hk t ht
  omega

/-- Claim C3 (amended): no timeline step carries status `current` (the current
stage is conveyed only through the reported current step), and the
reported current step is the last stage of the fixed order whose
completion predicate *as implemented* (`stagePred`) holds — not the
specification's stage-table predicate, whose `communicated` row does not
require approval (see `specTablePred` and the counterexample). -/
theorem c3_single_current_is_last (r : Receipt) (olt : Option LabTest)
    (orp : Option Report) (oinv : Option Invoice) :
    (buildTimeline r olt orp oinv).1.countP (fun s => s.status == "current") = 0 ∧
    (buildTimeline r olt orp oinv).2 =
      (TIMELINE_STEPS.filter (stagePred r olt orp oinv)).getLastD "received" := by
  refine ⟨?_, buildTimeline_current r olt orp oinv⟩
  rw [List.countP_eq_zero]
  intro a ha hcur
  have hor := buildTimeline_statuses r olt orp oinv a ha
  have hc : a.status = "current" := by simpa using hcur
  rw [hc] at hor
  rcases hor with h' | h' <;> exact absurd h' (by decide)

/-- Claim C5: an intake-only chain with `forward_to_central = false` derives the
timeline with `received` completed (timestamped with the intake creation
time) and the other ten stages pending, and reports `received` as the
current step. -/
theorem c5_intake_only_scenario (r : Receipt) (h : r.forward_to_central = false) :
    buildTimeline r none none none =
      ([⟨"received", "completed", some r.created_at, "Received at " ++ r.branch⟩] ++
        (TIMELINE_STEPS.drop 1).map
          (fun step => ⟨step, "pending", none, get_step_description step⟩),
       "received") := by
  obtain ⟨rid, rbranch, fwd, rawb, rcr⟩ := r
  cases fwd
  · rfl
  · simp at h

/-- Claim C4: a report reference appears iff the report is approved (status
"approved", downloadable); an invoice reference appears iff the invoice
status is issued/sent/paid (status the lower-cased enum value,
downloadable); no other kinds appear, and the report reference precedes
the invoice reference. -/
theorem c4_document_gating (olt : Option LabTest) (orp : Option Report)
    (oinv : Option Invoice) :
    ((buildDocuments olt orp oinv).map DocumentRef.type = [] ∨
     (buildDocuments olt orp oinv).map DocumentRef.type = ["report"] ∨
     (buildDocuments olt orp oinv).map DocumentRef.type = ["invoice"] ∨
     (buildDocuments olt orp oinv).map DocumentRef.type = ["report", "invoice"]) ∧
    ((∃ d ∈ buildDocuments olt orp oinv, d.type = "report") ↔
      (∃ rp, orp = some rp ∧ rp.final_status = FinalStatus.APPROVED)) ∧
    ((∃ d ∈ buildDocuments olt orp oinv, d.type = "invoice") ↔
      (∃ inv, oinv = some inv ∧ (inv.status = InvoiceStatus.ISSUED ∨
        inv.status = InvoiceStatus.SENT ∨ inv.status = InvoiceStatus.PAID))) ∧
    (∀ d ∈ buildDocuments olt orp oinv, d.type = "report" →
      d.status = "approved" ∧ d.download_available = true) ∧
    (∀ d ∈ buildDocuments olt orp oinv, d.type = "invoice" →
      (∃ inv, oinv = some inv ∧ d.status = inv.status.value.toLower) ∧
      d.download_available = true) := by
  rcases orp with _ | rp <;> rcases oinv with _ | inv <;>
    (try cases hfs : rp.final_status) <;> (try cases hst : inv.status) <;>
    simp_all [buildDocuments, InvoiceStatus.value]

/-- Claim C1 counterexample: with `forward_to_central = false` and a lab test
present, `lab_queued` is completed while `forwarded` is not, so the
completed stages are not a contiguous prefix of the fixed order and the
derivation did not stop at the first failing predicate. -/
theorem c1_counterexample :
    cexReceipt.forward_to_central = false ∧
    stagePred cexReceipt (some cexLabTest) none none "forwarded" = false ∧
    completedSteps (buildTimeline cexReceipt (some cexLabTest) none none).1 =
      ["received", "lab_queued"] ∧
    completedContiguous
      (buildTimeline cexReceipt (some cexLabTest) none none).1 = false := by
  decide

/-- Claim C5 witness at a concrete intake-only receipt. -/
theorem c5_intake_only_witness :
    buildTimeline ⟨"R-5", "Branch-5", false, none, 7⟩ none none none =
      ([⟨"received", "completed", some 7, "Received at " ++ "Branch-5"⟩] ++
        (TIMELINE_STEPS.drop 1).map
          (fun step => ⟨step, "pending", none, get_step_description step⟩),
       "received") :=
  c5_intake_only_scenario ⟨"R-5", "Branch-5", false, none, 7⟩ rfl

/-- Claim C3 counterexample: a chain whose report is dispatched but still a
draft.  The last stage of the fixed order satisfying the specification's
stage-table predicate is `communicated`, but the derivation reports
`report_ready` as the current step, because the implemented `communicated`
condition additionally requires the report to be approved. -/
theorem c3_counterexample :
    (TIMELINE_STEPS.filter
      (specTablePred c3Receipt (some c3LabTest) (some c3Report) none)).getLastD
        "received" = "communicated" ∧
    (buildTimeline c3Receipt (some c3LabTest) (some c3Report) none).2 =
      "report_ready" := by
  decide

/-- Claim C2 (code bug): the probe order cannot reach the invoice-number
rule.  In `malformedDb` the query "INV-700" is a stored invoice number,
matches no courier AWB and no receipt id, yet `track_shipment` raises
instead of resolving it: probe 3 binds the plain-string query under the
UUID-typed `labtests.id` and the statement fails before rules 4-6 can
run. -/
theorem c2_invoice_rule_unreachable :
    malformedDb.receipts.filter (fun r => r.courier_awb == some "INV-700") = [] ∧
    malformedDb.receipts.filter (fun r => r.id == "INV-700") = [] ∧
    (malformedDb.invoices.filter (fun i => i.invoice_no == "INV-700")).length = 1 ∧
    track_shipment malformedDb "INV-700" = .error () := by
  exact ⟨rfl, rfl, rfl, rfl⟩

/-- Claim C6 (code bug): a query matching no stored identifier does not
produce the normal `found = false` result: probe 3's UUID-typed bind
raises first, so `track_shipment` propagates an exception instead. -/
theorem c6_unmatched_query_raises :
    malformedDb.receipts.filter (fun r => r.courier_awb == some "no-such-id") = [] ∧
    malformedDb.receipts.filter (fun r => r.id == "no-such-id") = [] ∧
    malformedDb.labtests.filter (fun t => t.id == "no-such-id") = [] ∧
    malformedDb.reports.filter (fun rp => rp.id == "no-such-id") = [] ∧
    malformedDb.invoices.filter
      (fun i => i.invoice_no == "no-such-id" || i.id == "no-such-id") = [] ∧
    track_shipment malformedDb "no-such-id" = .error () := by
  exact ⟨rfl, rfl, rfl, rfl, rfl, rfl⟩

/-- Claim C7 (code bug): a malformed (non-UUID-shaped) query is not a
quiet zero-row non-match: it is a stored invoice id here, matches neither
receipt probe, and `track_shipment` raises at probe 3's UUID-typed bind,
so the later probes are never attempted and the crash propagates. -/
theorem c7_malformed_bind_raises :
    malformedInvoice.id = "zz not a uuid!" ∧
    malformedInvoice ∈ malformedDb.invoices ∧
    malformedDb.receipts.filter
      (fun r => r.courier_awb == some "zz not a uuid!") = [] ∧
    malformedDb.receipts.filter (fun r => r.id == "zz not a uuid!") = [] ∧
    track_shipment malformedDb "zz not a uuid!" = .error () := by
  exact ⟨rfl, List.Mem.head _, rfl, rfl, rfl⟩

/-- Claim C8 (code bug): an intake with two lab tests is resolved by the
receipt-id probe, but the downward chain load does not pick the first
child by creation time: the child select binds the string `receipt.id`
under the UUID-typed `labtests.receipt_id` and raises (and even on a
backend where the bind succeeded, the select has no ORDER BY and
`scalar_one_or_none` raises `MultipleResultsFound` on the two rows), so
`track_shipment` fails instead of returning a single chain. -/
theorem c8_child_fetch_raises :
    (multiDb.labtests.filter (fun t => t.receipt_id == multiReceipt.id)).length = 2 ∧
    track_shipment multiDb "R-M" = .error () := by
  exact ⟨rfl, rfl⟩

end Tracklite
